import Mathlib

/-!
Verification of the simulation engine in `src/task1.js`.

The program defines a data model of Blocks with input and calculated
attributes, named scenarios overriding inputs, and `runSimulation`,
which resolves inputs and then runs a fixed-point iteration
(sequential, Gauss-Seidel style) over the four calculated attributes
until the maximum absolute per-iteration change drops below a
threshold or a maximum iteration count is reached.

JavaScript numbers are IEEE doubles; we embed the arithmetic over ℚ.
All constants in the source (120, 60, 35, 0.8, 0.1, 0.05, 90, 40,
0.001) are exact decimals, and the fixed-point iteration contracts
fast enough that the float/rational divergence (≈1e-13) never comes
near a comparison boundary (the deltas compared against the 0.001
threshold are 0.0045… and 0.00045…), so the ℚ model is faithful for
every property proved here.
-/

/- Batteries marks the arithmetic on `Rat` `@[irreducible]`; the concrete
runs below are settled by `decide`, which needs those operations to
unfold, so we restore their ordinary reducibility.  This changes nothing
about their meaning, only what the elaborator unfolds. -/
set_option allowUnsafeReducibility true
attribute [semireducible] Rat.mul Rat.add Rat.sub Rat.neg Rat.inv Rat.ofScientific Rat.div

namespace Task1

/-- The evaluation context of `runSimulation` (src/task1.js:132-139):
a mapping holding the three input attributes and the four calculated
attributes. -/
structure Ctx where
  materialCost : ℚ
  energyCost : ℚ
  transportCost : ℚ
  co2Cost : ℚ
  disposalCost : ℚ
  logisticsCost : ℚ
  ecoFees : ℚ
deriving Repr, DecidableEq

/-- `blocks.Production.disposalCost.formula` (src/task1.js:22):
`ctx.materialCost * 0.8 + ctx.co2Cost`. -/
def disposalCost_formula (ctx : Ctx) : ℚ := ctx.materialCost * 0.8 + ctx.co2Cost

/-- `blocks.Production.co2Cost.formula` (src/task1.js:30):
`ctx.energyCost * 0.1 + ctx.disposalCost * 0.05`. -/
def co2Cost_formula (ctx : Ctx) : ℚ := ctx.energyCost * 0.1 + ctx.disposalCost * 0.05

/-- `blocks.Logistics.logisticsCost.formula` (src/task1.js:42):
`ctx.transportCost + ctx.ecoFees`. -/
def logisticsCost_formula (ctx : Ctx) : ℚ := ctx.transportCost + ctx.ecoFees

/-- `blocks.Logistics.ecoFees.formula` (src/task1.js:50):
`ctx.logisticsCost * 0.1 + ctx.co2Cost * 0.05`. -/
def ecoFees_formula (ctx : Ctx) : ℚ := ctx.logisticsCost * 0.1 + ctx.co2Cost * 0.05

/-- Default values of the input attributes as declared in `blocks`
(src/task1.js:13,16,36): `materialCost: 120`, `energyCost: 60`,
`transportCost: 35`. -/
structure InputDefaults where
  materialCost : ℚ
  energyCost : ℚ
  transportCost : ℚ
deriving Repr, DecidableEq

/-- The `value` fields of the three `type: 'input'` attributes of
`blocks` (src/task1.js:10-53). -/
def blockDefaults : InputDefaults :=
  { materialCost := 120, energyCost := 60, transportCost := 35 }

/-- The shape of one scenario's `Production` section: each input of the
Production block may or may not be overridden (JS object spread skips
absent keys). -/
structure ProductionOverrides where
  materialCost : Option ℚ
  energyCost : Option ℚ
deriving Repr, DecidableEq

/-- The shape of one scenario's `Logistics` section. -/
structure LogisticsOverrides where
  transportCost : Option ℚ
deriving Repr, DecidableEq

/-- One entry of the `scenarios` object (src/task1.js:62-72). -/
structure Scenario where
  Production : ProductionOverrides
  Logistics : LogisticsOverrides
deriving Repr, DecidableEq

/-- The `scenarios` table (src/task1.js:62-72).  `Base` lists all three
inputs at their default values; `HighEnergyPrices` overrides only
`energyCost` (to 90) and `transportCost` (to 40).  Property access on a
JS object returns `undefined` for absent keys, embedded as `none`. -/
def scenarios : String → Option Scenario
  | "Base" =>
      some { Production := { materialCost := some 120, energyCost := some 60 }
             Logistics := { transportCost := some 35 } }
  | "HighEnergyPrices" =>
      some { Production := { materialCost := none, energyCost := some 90 }
             Logistics := { transportCost := some 40 } }
  | _ => none

/-- The JS spread `{...context, ...s.Production, ...s.Logistics}`
(src/task1.js:143): every key present in the scenario sections
overwrites the context's value; absent keys leave it unchanged.
Scenario sections only ever carry input attributes. -/
def applyOverrides (s : Scenario) (c : Ctx) : Ctx :=
  { c with
    materialCost := s.Production.materialCost.getD c.materialCost
    energyCost := s.Production.energyCost.getD c.energyCost
    transportCost := s.Logistics.transportCost.getD c.transportCost }

/-- The initial context (src/task1.js:132-139): the spread of
`scenarios.Base.Production` and `scenarios.Base.Logistics` (all three
inputs, at 120/60/35), with every calculated attribute set to 0. -/
def initContext : Ctx :=
  { materialCost := 120, energyCost := 60, transportCost := 35
    co2Cost := 0, disposalCost := 0, logisticsCost := 0, ecoFees := 0 }

/-- Input resolution (src/task1.js:132-144): start from `initContext`;
if the scenario name is not `"Base"` and is present in the `scenarios`
table, spread its sections over the context; otherwise (including any
unknown name) the context is left as the `Base` inputs. -/
def resolveContext (scenarioName : String) : Ctx :=
  if scenarioName ≠ "Base" then
    match scenarios scenarioName with
    | some s => applyOverrides s initContext
    | none => initContext
  else initContext

/-- One iteration of the solver loop body (src/task1.js:150-158): the
four calculated attributes are reassigned one at a time, in source
order (disposalCost, co2Cost, logisticsCost, ecoFees), each formula
reading the context as already updated by the assignments before it. -/
def step (c : Ctx) : Ctx :=
  let c1 := { c with disposalCost := disposalCost_formula c }
  let c2 := { c1 with co2Cost := co2Cost_formula c1 }
  let c3 := { c2 with logisticsCost := logisticsCost_formula c2 }
  { c3 with ecoFees := ecoFees_formula c3 }

/-- `Math.max(...deltas)` over the four deltas of src/task1.js:161-166:
the maximum absolute difference between the new and the previous value
of each calculated attribute. -/
def maxDelta (prev cur : Ctx) : ℚ :=
  max (max (max |cur.disposalCost - prev.disposalCost|
               |cur.co2Cost - prev.co2Cost|)
           |cur.logisticsCost - prev.logisticsCost|)
      |cur.ecoFees - prev.ecoFees|

/-- The `for` loop of src/task1.js:149-174, by remaining iterations
(fuel).  Returns the final context together with the convergence
report: `some n` when the loop broke with `Converged in n iterations.`
logged, `none` when the iteration cap was exhausted without the delta
check ever passing (the source logs nothing and returns the last
context in that case). -/
def runLoop (threshold : ℚ) : Nat → Ctx → Ctx × Option Nat
  | 0, c => (c, none)
  | fuel + 1, c =>
      let c' := step c
      if maxDelta c c' < threshold then (c', some 1)
      else
        let r := runLoop threshold fuel c'
        (r.1, r.2.map (· + 1))

/-- `runSimulation(scenarioName, maxIterations, threshold)`
(src/task1.js:128-177).  The first component is the returned context;
the second is the convergence log (`some n` iff the source printed
`Converged in n iterations.`). -/
def runSimulation (scenarioName : String) (maxIterations : Nat := 100)
    (threshold : ℚ := 1/1000) : Ctx × Option Nat :=
  runLoop threshold maxIterations (resolveContext scenarioName)

/-- Modelled from the spec: the stale-snapshot (Jacobi) update the spec
contrasts with the source's sequential update — every member's formula
is applied to the snapshot taken at the start of the iteration, so no
member sees a value recomputed in the same iteration.  Used only to
show that the source's `step` is not this. -/
def jacobiStep (c : Ctx) : Ctx :=
  { c with
    disposalCost := disposalCost_formula c
    co2Cost := co2Cost_formula c
    logisticsCost := logisticsCost_formula c
    ecoFees := ecoFees_formula c }

/-- The delta the loop compares against the threshold after its
`i`-th full iteration (0-based): the maximum absolute change the
iteration `i+1`-st application of `step` makes to the four calculated
attributes, starting from context `c`. -/
def iterDelta (c : Ctx) (i : Nat) : ℚ :=
  maxDelta (step^[i] c) (step^[i + 1] c)

end Task1

namespace Task1

/- Helper lemmas about the loop, shared by several claims below. -/

theorem runLoop_zero (t : ℚ) (c : Ctx) : runLoop t 0 c = (c, none) := rfl

theorem runLoop_succ (t : ℚ) (n : Nat) (c : Ctx) :
    runLoop t (n + 1) c =
      if maxDelta c (step c) < t then (step c, some 1)
      else ((runLoop t n (step c)).1, (runLoop t n (step c)).2.map (· + 1)) := rfl

theorem iterDelta_step (c : Ctx) (i : Nat) :
    iterDelta (step c) i = iterDelta c (i + 1) := by
  unfold iterDelta
  rw [Function.iterate_succ_apply step (i + 1) c, Function.iterate_succ_apply step i c]

theorem iterDelta_zero (c : Ctx) : iterDelta c 0 = maxDelta c (step c) := by
  simp [iterDelta]

/-- The loop never reports a count of zero iterations: the converged
log is printed as `iteration + 1` (src/task1.js:171). -/
theorem runLoop_snd_ne_some_zero (t : ℚ) (n : Nat) (c : Ctx) :
    (runLoop t n c).2 ≠ some 0 := by
  induction n generalizing c with
  | zero => simp [runLoop_zero]
  | succ n ih =>
      rw [runLoop_succ]
      split
      · simp
      · intro h
        rw [Option.map_eq_some'] at h
        obtain ⟨a, _, ha⟩ := h
        omega

/-- The final context is the initial context with `step` applied once
per executed loop iteration: the reported count when the loop broke
early, the full cap otherwise. -/
theorem runLoop_fst_eq (t : ℚ) (n : Nat) (c : Ctx) :
    (runLoop t n c).1 = step^[(runLoop t n c).2.getD n] c := by
  induction n generalizing c with
  | zero => simp [runLoop_zero]
  | succ n ih =>
      rw [runLoop_succ]
      split
      · simp
      · rcases hr : (runLoop t n (step c)).2 with _ | a
        · have := ih (step c)
          rw [hr] at this
          simpa [hr, Function.iterate_succ_apply] using this
        · have := ih (step c)
          rw [hr] at this
          simpa [hr, Function.iterate_succ_apply] using this

theorem step_preserves_inputs (c : Ctx) :
    (step c).materialCost = c.materialCost ∧
    (step c).energyCost = c.energyCost ∧
    (step c).transportCost = c.transportCost :=
  ⟨rfl, rfl, rfl⟩

theorem iterate_preserves_inputs (m : Nat) (c : Ctx) :
    (step^[m] c).materialCost = c.materialCost ∧
    (step^[m] c).energyCost = c.energyCost ∧
    (step^[m] c).transportCost = c.transportCost := by
  induction m generalizing c with
  | zero => simp
  | succ m ih =>
      rw [Function.iterate_succ_apply]
      exact ⟨((ih (step c)).1).trans rfl, ((ih (step c)).2.1).trans rfl,
        ((ih (step c)).2.2).trans rfl⟩

end Task1

namespace Task1

/-- C1: Running the Base scenario (inputs 120/60/35, calculated
attributes initialized to 0, threshold 0.001) converges in exactly 6
iterations, and the final values are within 0.001 of
co2Cost ≈ 11.368, disposalCost ≈ 107.368, logisticsCost ≈ 39.520,
ecoFees ≈ 4.520. -/
theorem base_run_converges_in_6 :
    (runSimulation "Base" 100 (1/1000)).2 = some 6 ∧
    |(runSimulation "Base" 100 (1/1000)).1.co2Cost - 11368/1000| < 1/1000 ∧
    |(runSimulation "Base" 100 (1/1000)).1.disposalCost - 107368/1000| < 1/1000 ∧
    |(runSimulation "Base" 100 (1/1000)).1.logisticsCost - 39520/1000| < 1/1000 ∧
    |(runSimulation "Base" 100 (1/1000)).1.ecoFees - 4520/1000| < 1/1000 := by
  decide

/-- C3: Within each solver iteration the four members of the cyclic
group are updated one at a time in the source's fixed order
(disposalCost, co2Cost, logisticsCost, ecoFees), and each update is
visible to members evaluated later in the same iteration: co2Cost
reads the disposalCost already recomputed this iteration, and ecoFees
reads this iteration's logisticsCost and co2Cost (Gauss-Seidel);
disposalCost and logisticsCost read the values from before their own
update (co2Cost resp. ecoFees are updated after them).  The update is
not the stale-snapshot (Jacobi) one. -/
theorem step_is_gauss_seidel :
    (∀ c : Ctx,
      (step c).disposalCost = c.materialCost * 0.8 + c.co2Cost ∧
      (step c).co2Cost = c.energyCost * 0.1 + (step c).disposalCost * 0.05 ∧
      (step c).logisticsCost = c.transportCost + c.ecoFees ∧
      (step c).ecoFees = (step c).logisticsCost * 0.1 + (step c).co2Cost * 0.05) ∧
    step initContext ≠ jacobiStep initContext :=
  ⟨fun _ => ⟨rfl, rfl, rfl, rfl⟩, by decide⟩

/-- C6: At the start of a run every calculated attribute is
initialized to zero.  (The code keeps no cache of previous runs, so
the spec's "last cached value if present" branch never applies: the
context is built fresh with all four calculated attributes at 0,
src/task1.js:135-138, for every scenario name.) -/
theorem init_calculated_zero (s : String) :
    (resolveContext s).co2Cost = 0 ∧
    (resolveContext s).disposalCost = 0 ∧
    (resolveContext s).logisticsCost = 0 ∧
    (resolveContext s).ecoFees = 0 := by
  unfold resolveContext
  split
  · rcases scenarios s with _ | sc
    · exact ⟨rfl, rfl, rfl, rfl⟩
    · exact ⟨rfl, rfl, rfl, rfl⟩
  · exact ⟨rfl, rfl, rfl, rfl⟩

/-- C7: For every scenario in the `scenarios` table, the resolved
input values are the block defaults (materialCost 120, energyCost 60,
transportCost 35) overridden by the overrides the scenario declares:
an input the scenario does not mention keeps its default value. -/
theorem resolve_defaults_then_overrides (name : String) (sc : Scenario)
    (h : scenarios name = some sc) :
    (resolveContext name).materialCost
        = sc.Production.materialCost.getD blockDefaults.materialCost ∧
    (resolveContext name).energyCost
        = sc.Production.energyCost.getD blockDefaults.energyCost ∧
    (resolveContext name).transportCost
        = sc.Logistics.transportCost.getD blockDefaults.transportCost := by
  unfold scenarios at h
  split at h
  · cases h
    exact ⟨rfl, rfl, rfl⟩
  · cases h
    exact ⟨rfl, rfl, rfl⟩
  · cases h

/-- C7 witness: in the HighEnergyPrices scenario the un-overridden
materialCost resolves to its default 120 while the two overridden
inputs take their override values. -/
theorem resolve_defaults_then_overrides_witness :
    (resolveContext "HighEnergyPrices").materialCost = 120 ∧
    (resolveContext "HighEnergyPrices").energyCost = 90 ∧
    (resolveContext "HighEnergyPrices").transportCost = 40 :=
  resolve_defaults_then_overrides "HighEnergyPrices"
    { Production := { materialCost := none, energyCost := some 90 }
      Logistics := { transportCost := some 40 } } rfl

/-- C8 counterexample: a scenario name that resolves to no scenario is
not an error — `runSimulation` silently returns exactly the Base
result (src/task1.js:142 only applies overrides when the name is found,
and no validation of any kind exists). -/
theorem unknown_scenario_silent_fallback :
    scenarios "HighEnergyPrice" = none ∧
    runSimulation "HighEnergyPrice" 100 (1/1000)
      = runSimulation "Base" 100 (1/1000) :=
  ⟨rfl, rfl⟩

/-- C8 amended: input resolution never fails; a scenario name that
does not resolve to an entry of the `scenarios` table silently falls
back to the Base inputs, returning the same result as a Base run for
every option choice. -/
theorem unknown_scenario_falls_back_to_base (s : String)
    (h : scenarios s = none) (n : Nat) (t : ℚ) :
    runSimulation s n t = runSimulation "Base" n t := by
  unfold runSimulation
  have : resolveContext s = resolveContext "Base" := by
    unfold resolveContext
    split
    · rw [h]
      rfl
    · rfl
  rw [this]

/-- C8 amended, witness: the misspelled name "HighEnergyPrizes" is
unknown and a run under it coincides with the Base run. -/
theorem unknown_scenario_falls_back_to_base_witness :
    scenarios "HighEnergyPrizes" = none ∧
    runSimulation "HighEnergyPrizes" 2 1 = runSimulation "Base" 2 1 :=
  ⟨rfl, unknown_scenario_falls_back_to_base "HighEnergyPrizes" rfl 2 1⟩

/-- C9: evaluation is deterministic — for a fixed scenario name,
maxIterations and threshold, any two results of the run operation are
identical (the run reads nothing but its arguments and the immutable
`blocks`/`scenarios` tables, and its per-run context is fresh). -/
theorem run_deterministic (s : String) (n : Nat) (t : ℚ)
    (r₁ r₂ : Ctx × Option Nat)
    (h₁ : r₁ = runSimulation s n t) (h₂ : r₂ = runSimulation s n t) :
    r₁ = r₂ :=
  h₁.trans h₂.symm

/-- C9 witness: two Base invocations at the default options return the
same result. -/
theorem run_deterministic_witness :
    runSimulation "Base" 100 (1/1000) = runSimulation "Base" 100 (1/1000) :=
  run_deterministic "Base" 100 (1/1000) _ _ rfl rfl

/-- C10: the iteration loop writes only the four calculated
attributes: for every scenario name and options, the three input
attributes in the returned context equal their values in the resolved
(default-then-override) input context. -/
theorem loop_preserves_inputs (s : String) (n : Nat) (t : ℚ) :
    (runSimulation s n t).1.materialCost = (resolveContext s).materialCost ∧
    (runSimulation s n t).1.energyCost = (resolveContext s).energyCost ∧
    (runSimulation s n t).1.transportCost = (resolveContext s).transportCost := by
  unfold runSimulation
  rw [runLoop_fst_eq]
  exact iterate_preserves_inputs _ _

/-- C4: the loop's stopping rule, characterized declaratively.  After
each iteration the loop compares the maximum absolute change of the
four calculated attributes (`iterDelta`) against the caller-supplied
threshold: it reports convergence after `k+1` iterations exactly when
the `k`-th delta is strictly below the threshold, every earlier delta
was not, and the cap `n` has not been exhausted; it reports nothing
(running the full `n` iterations) exactly when no delta among the
first `n` is strictly below the threshold. -/
theorem convergence_criterion (t : ℚ) (n : Nat) (c : Ctx) :
    (∀ k : Nat, (runLoop t n c).2 = some (k + 1) ↔
        (k < n ∧ iterDelta c k < t ∧ ∀ i < k, t ≤ iterDelta c i)) ∧
    ((runLoop t n c).2 = none ↔ ∀ i < n, t ≤ iterDelta c i) := by
  induction n generalizing c with
  | zero =>
      refine ⟨fun k => ?_, by simp [runLoop_zero]⟩
      simp [runLoop_zero]
  | succ n ih =>
      rw [runLoop_succ]
      by_cases h : maxDelta c (step c) < t
      · rw [if_pos h]
        refine ⟨fun k => ?_, ?_⟩
        · constructor
          · intro hk
            have hk0 : k = 0 := by
              have := Option.some.inj hk
              omega
            subst hk0
            exact ⟨Nat.succ_pos n, by simpa [iterDelta_zero] using h, by omega⟩
          · rintro ⟨-, -, hall⟩
            rcases Nat.eq_zero_or_pos k with rfl | hpos
            · rfl
            · exact absurd h (not_lt.mpr (by simpa [iterDelta_zero] using hall 0 hpos))
        · constructor
          · intro hnone
            cases hnone
          · intro hall
            exact absurd h (not_lt.mpr (by simpa [iterDelta_zero] using hall 0 (Nat.succ_pos n)))
      · rw [if_neg h]
        have h0 : t ≤ iterDelta c 0 := by
          rw [iterDelta_zero]
          exact not_lt.mp h
        obtain ⟨ihs, ihn⟩ := ih (step c)
        refine ⟨fun k => ?_, ?_⟩
        · constructor
          · intro hk
            simp only [Option.map_eq_some'] at hk
            obtain ⟨a, ha, hak⟩ := hk
            rcases a with _ | a
            · exact absurd ha (runLoop_snd_ne_some_zero t n (step c))
            · have hak' : a = k - 1 := by omega
              have hk1 : k = a + 1 := by omega
              subst hk1
              obtain ⟨han, hda, hall⟩ := (ihs a).mp ha
              refine ⟨by omega, ?_, ?_⟩
              · rw [← iterDelta_step]
                exact hda
              · intro i hi
                rcases i with _ | i
                · exact h0
                · rw [← iterDelta_step]
                  exact hall i (by omega)
          · rintro ⟨hkn, hdk, hall⟩
            rcases k with _ | k
            · exact absurd (by simpa [iterDelta_zero] using hdk) h
            · have : (runLoop t n (step c)).2 = some (k + 1) := by
                refine (ihs k).mpr ⟨by omega, ?_, ?_⟩
                · rw [iterDelta_step]
                  exact hdk
                · intro i hi
                  rw [iterDelta_step]
                  exact hall (i + 1) (by omega)
              simp [Option.map_eq_some', this]
        · constructor
          · intro hnone
            simp only [Option.map_eq_none'] at hnone
            have hall := ihn.mp hnone
            intro i hi
            rcases i with _ | i
            · exact h0
            · rw [← iterDelta_step]
              exact hall i (by omega)
          · intro hall
            have : (runLoop t n (step c)).2 = none := by
              refine ihn.mpr fun i hi => ?_
              rw [iterDelta_step]
              exact hall (i + 1) (by omega)
            simp [Option.map_eq_none', this]

/-- C5 counterexample: with the cap set to 1 iteration the Base run
does not converge (its first delta is 96, far above the threshold),
yet the returned result carries no not-converged diagnostic at all:
nothing is logged (the source logs only on the convergence path,
src/task1.js:170-173) and the returned context has no converged flag.
-/
theorem notConverged_unreported_counterexample :
    (1/1000 : ℚ) ≤ iterDelta (resolveContext "Base") 0 ∧
    (runSimulation "Base" 1 (1/1000)).2 = none := by
  constructor
  · rw [iterDelta_zero]
    decide
  · decide

/-- C5 amended: when the iteration cap `n` is reached without
convergence (no convergence log is produced), the run still terminates
and returns the context produced by the last completed iteration —
`step` applied `n` times to the resolved inputs — rather than raising
an error; but the result contains no converged=false diagnostic, the
non-convergence being observable only as the absence of the log. -/
theorem notConverged_returns_last_values (s : String) (n : Nat) (t : ℚ)
    (h : (runSimulation s n t).2 = none) :
    (runSimulation s n t).1 = step^[n] (resolveContext s) := by
  unfold runSimulation at h ⊢
  rw [runLoop_fst_eq, h]
  rfl

/-- C5 amended, witness: the Base run capped at 1 iteration produces
no convergence log and returns the once-stepped context. -/
theorem notConverged_returns_last_values_witness :
    (runSimulation "Base" 1 (1/1000)).2 = none ∧
    (runSimulation "Base" 1 (1/1000)).1 = step^[1] (resolveContext "Base") :=
  ⟨by decide, notConverged_returns_last_values "Base" 1 (1/1000) (by decide)⟩

/-- C2: Running the HighEnergyPrices scenario (overriding only
energyCost=90 and transportCost=40, materialCost staying at 120)
converges in the same number of iterations as the Base run (6), and
the final values are within 0.001 of co2Cost ≈ 14.526,
disposalCost ≈ 110.526, logisticsCost ≈ 45.251, ecoFees ≈ 5.251. -/
theorem highEnergy_run_converges_in_6 :
    (runSimulation "HighEnergyPrices" 100 (1/1000)).2
      = (runSimulation "Base" 100 (1/1000)).2 ∧
    (runSimulation "HighEnergyPrices" 100 (1/1000)).2 = some 6 ∧
    (resolveContext "HighEnergyPrices").materialCost = 120 ∧
    |(runSimulation "HighEnergyPrices" 100 (1/1000)).1.co2Cost - 14526/1000| < 1/1000 ∧
    |(runSimulation "HighEnergyPrices" 100 (1/1000)).1.disposalCost - 110526/1000| < 1/1000 ∧
    |(runSimulation "HighEnergyPrices" 100 (1/1000)).1.logisticsCost - 45251/1000| < 1/1000 ∧
    |(runSimulation "HighEnergyPrices" 100 (1/1000)).1.ecoFees - 5251/1000| < 1/1000 := by
  decide

end Task1
